import Mathlib

/-!
Verification of the wllama "glue" binary codec (src/cpp/glue.hpp) and its
boundary entry point (src/cpp/wllama.cpp, `wllama_action`).

The embedding models bytes as natural numbers below 256, buffers as lists of
bytes, and the read cursor (`glue_inbuf`) as a total memory function together
with an absolute cursor.  The source performs no bounds checking, so reads
past the supplied buffer succeed and return whatever the surrounding memory
holds; the model makes that explicit: `mem` is total, and a ghost high-water
mark `maxRead` records one past the largest address dereferenced so far, so
that theorems can speak about whether a decode stayed inside the span.

Machine integers: `read_u32`, `read_i32` and `read_f32` in the source all
copy the same four little-endian bytes into a 32-bit slot; no arithmetic is
ever performed on the transported values, so all three are represented by a
single four-byte read returning the bit pattern as a `Nat` below 2^32, and
`int32_t` / `float` field values are stored as their 32-bit patterns.
-/

namespace Glue

/-- GLUE_MAGIC from glue.hpp ("GLUE" in little-endian). -/
def GLUE_MAGIC : Nat := 0x45554c47

/-- The GLUE_VERSION constant from glue.hpp. -/
def GLUE_VERSION : Nat := 1

/-- Little-endian 4-byte encoding of a 32-bit value, as written by
`glue_outbuf::append_u32` / `append_i32` / `append_f32` (the C++ conversion
to `uint32_t` truncates modulo 2^32, which the byte decomposition performs
implicitly). -/
def writeU32 (v : Nat) : List Nat :=
  [v % 256, v / 256 % 256, v / 65536 % 256, v / 16777216 % 256]

/-- The read cursor of `glue_inbuf`: a base-relative total memory, the
current offset `cur`, and a ghost high-water mark `maxRead` (one past the
largest address read so far; the source tracks nothing of the kind because
it never checks bounds). -/
structure GlueInbuf where
  mem : Nat → Nat
  cur : Nat
  maxRead : Nat

/-- A single byte of the input, reduced modulo 256 as on real hardware. -/
def byteAt (inp : GlueInbuf) (i : Nat) : Nat := inp.mem i % 256

/-- The model of `glue_inbuf::read_u32` (and of `read_i32` / `read_f32`,
which dereference the same four bytes): assemble four little-endian bytes,
advance the cursor, record the touched addresses.  No bounds check exists in
the source. -/
def readU32 (inp : GlueInbuf) : Nat × GlueInbuf :=
  (byteAt inp inp.cur + 256 * byteAt inp (inp.cur + 1) +
     65536 * byteAt inp (inp.cur + 2) + 16777216 * byteAt inp (inp.cur + 3),
   { inp with cur := inp.cur + 4, maxRead := max inp.maxRead (inp.cur + 4) })

/-- The model of `glue_inbuf::read_str` / `read_raw`: copy `n` bytes and
advance.  Again no bounds check.  A zero-length read touches no address. -/
def readBytes (n : Nat) (inp : GlueInbuf) : List Nat × GlueInbuf :=
  ((List.range n).map fun i => byteAt inp (inp.cur + i),
   { inp with
       cur := inp.cur + n,
       maxRead := if n = 0 then inp.maxRead else max inp.maxRead (inp.cur + n) })

/-- Reading `n` consecutive u32 values, as the element loop of
`glue_arr<T>::parse` does for `uint32_t` / `int32_t` / `float` elements. -/
def readU32s : Nat → GlueInbuf → List Nat × GlueInbuf
  | 0, inp => ([], inp)
  | n + 1, inp =>
    let r1 := readU32 inp
    let r2 := readU32s n r1.2
    (r1.1 :: r2.1, r2.2)

/-- Reading `n` length-prefixed byte strings, as the element loop of
`glue_arr<T>::parse` does for `std::string` / `std::vector<char>` elements
(`glue_inbuf::read(std::string &)` reads a u32 size then that many bytes). -/
def readLPs : Nat → GlueInbuf → List (List Nat) × GlueInbuf
  | 0, inp => ([], inp)
  | n + 1, inp =>
    let r1 := readU32 inp
    let r2 := readBytes r1.1 r1.2
    let r3 := readLPs n r2.2
    (r2.1 :: r3.1, r3.2)

/-- The ten non-null field classes of glue.hpp (`glue_bool`, `glue_int`,
`glue_float`, `glue_str`, `glue_raw`, `glue_arr_bool`, `glue_arr_int`,
`glue_arr_float`, `glue_arr_str`, `glue_arr_raw`). -/
inductive FieldKind
  | bool | int | float | str | raw
  | arrBool | arrInt | arrFloat | arrStr | arrRaw
  deriving DecidableEq, Repr

/-- The wire tag of each field class, i.e. the `glue_dtype` enumerator the
class constructor stores: `GLUE_DTYPE_BOOL = 1` through
`GLUE_DTYPE_ARRAY_RAW = 10` (`GLUE_DTYPE_NULL = 0` has no class). -/
def tagOf : FieldKind → Nat
  | .bool => 1
  | .int => 2
  | .float => 3
  | .str => 4
  | .raw => 5
  | .arrBool => 6
  | .arrInt => 7
  | .arrFloat => 8
  | .arrStr => 9
  | .arrRaw => 10

/-- The value slot of a field object.  `glue_arr_bool` stores `uint32_t`
elements, hence `vArrU32`; int32 and float values are 32-bit patterns. -/
inductive GlueValue
  | vBool (b : Bool)
  | vI32 (n : Nat)
  | vF32 (w : Nat)
  | vStr (s : List Nat)
  | vRaw (s : List Nat)
  | vArrU32 (xs : List Nat)
  | vArrI32 (xs : List Nat)
  | vArrF32 (xs : List Nat)
  | vArrStr (es : List (List Nat))
  | vArrRaw (es : List (List Nat))
  deriving DecidableEq, Repr

/-- One field object (`glue_type_base` plus the value slot of the concrete
class): `kind` is the class it was constructed as, `dtype` the mutable
`glue_dtype` member (a raw u32; `0` means null/absent), `value` the class
value slot. -/
structure GlueField where
  kind : FieldKind
  dtype : Nat
  value : GlueValue
  deriving DecidableEq, Repr

/-- Default-constructed value slot of each class (`false`, `0`, `0.0f`,
empty string/buffer/array). -/
def defaultValue : FieldKind → GlueValue
  | .bool => .vBool false
  | .int => .vI32 0
  | .float => .vF32 0
  | .str => .vStr []
  | .raw => .vRaw []
  | .arrBool => .vArrU32 []
  | .arrInt => .vArrI32 []
  | .arrFloat => .vArrF32 []
  | .arrStr => .vArrStr []
  | .arrRaw => .vArrRaw []

/-- A freshly constructed field: the class constructor stores its own
`glue_dtype`, so a new field is present with a default value. -/
def mkFresh (k : FieldKind) : GlueField :=
  { kind := k, dtype := tagOf k, value := defaultValue k }

/-- The `GLUE_FIELD(type, name)` macro: it expands to a default construction
of the field class. -/
def GLUE_FIELD_make (k : FieldKind) : GlueField := mkFresh k

/-- The `GLUE_FIELD_NULLABLE(type, name)` macro: its expansion is textually
identical to that of `GLUE_FIELD`. -/
def GLUE_FIELD_NULLABLE_make (k : FieldKind) : GlueField := mkFresh k

/-- The model of `glue_type_base::set_null`. -/
def setNull (f : GlueField) : GlueField := { f with dtype := 0 }

/-- Accessor used for the array-append semantics of `glue_arr::parse`
(the slot is read through the concrete class, so the other cases are
unreachable in well-formed states). -/
def getArrU32 : GlueValue → List Nat
  | .vArrU32 xs => xs
  | _ => []

/-- Accessor for `glue_arr_int` contents. -/
def getArrI32 : GlueValue → List Nat
  | .vArrI32 xs => xs
  | _ => []

/-- Accessor for `glue_arr_float` contents. -/
def getArrF32 : GlueValue → List Nat
  | .vArrF32 xs => xs
  | _ => []

/-- Accessor for `glue_arr_str` contents. -/
def getArrStr : GlueValue → List (List Nat)
  | .vArrStr es => es
  | _ => []

/-- Accessor for `glue_arr_raw` contents. -/
def getArrRaw : GlueValue → List (List Nat)
  | .vArrRaw es => es
  | _ => []

/-- Payload emitted by the concrete field classes' `serialize` after the
tag word: scalar value, length-prefixed bytes, or count-prefixed elements
(`glue_bool` writes the boolean as u32 0/1; array lengths and string sizes
pass through the `uint32_t` truncation of `append_u32`). -/
def payloadBytes : FieldKind → GlueValue → List Nat
  | .bool, .vBool b => writeU32 (if b then 1 else 0)
  | .int, .vI32 n => writeU32 n
  | .float, .vF32 w => writeU32 w
  | .str, .vStr s => writeU32 s.length ++ s
  | .raw, .vRaw s => writeU32 s.length ++ s
  | .arrBool, .vArrU32 xs => writeU32 xs.length ++ xs.flatMap writeU32
  | .arrInt, .vArrI32 xs => writeU32 xs.length ++ xs.flatMap writeU32
  | .arrFloat, .vArrF32 xs => writeU32 xs.length ++ xs.flatMap writeU32
  | .arrStr, .vArrStr es => writeU32 es.length ++ es.flatMap fun e => writeU32 e.length ++ e
  | .arrRaw, .vArrRaw es => writeU32 es.length ++ es.flatMap fun e => writeU32 e.length ++ e
  | _, _ => []

/-- One field as emitted by the switch in `glue_handler::serialize`:
an absent field (dtype 0) is exactly the four-byte null tag; a present
field whose `dtype` matches its class emits the tag word followed by the
class payload.  A `dtype` that matches no case label falls out of the
switch emitting nothing; a `dtype` in 1..10 that differs from the class is
a cast through the wrong class in the source (undefined behavior) and is
unreachable from well-formed messages. -/
def serializeField (f : GlueField) : List Nat :=
  if f.dtype = 0 then writeU32 0
  else if f.dtype = tagOf f.kind then writeU32 f.dtype ++ payloadBytes f.kind f.value
  else []

/-- `glue_handler::serialize`: clear the output buffer, write magic,
version, the 8-byte prototype id verbatim, then every field in declared
order.  No message-length word is written (the file-header comment of
glue.hpp mentions one, but the code does not emit it). -/
def serializeMsg (pid : List Nat) (flds : List GlueField) : List Nat :=
  writeU32 GLUE_MAGIC ++ writeU32 GLUE_VERSION ++ pid ++ flds.flatMap serializeField

/-- `glue_type_base::parse_type`: read a u32, store it into `dtype`
unconditionally (no validation against the declared kind and no range
check), and report whether it was the null tag. -/
def parseType (f : GlueField) (inp : GlueInbuf) : Nat × GlueField × GlueInbuf :=
  let r := readU32 inp
  (r.1, { f with dtype := r.1 }, r.2)

/-- The `parse` member of the concrete field class `k`: `parse_type`, then
on a non-null tag read the payload according to the class (array classes
append the decoded elements to the existing contents with `push_back`;
nothing clears the vector first). -/
def classParse (k : FieldKind) (f : GlueField) (inp : GlueInbuf) :
    GlueField × GlueInbuf :=
  let r := parseType f inp
  let f1 := r.2.1
  let inp1 := r.2.2
  if r.1 = 0 then (f1, inp1)
  else
    match k with
    | .bool =>
      let rv := readU32 inp1
      ({ f1 with value := .vBool (rv.1 != 0) }, rv.2)
    | .int =>
      let rv := readU32 inp1
      ({ f1 with value := .vI32 rv.1 }, rv.2)
    | .float =>
      let rv := readU32 inp1
      ({ f1 with value := .vF32 rv.1 }, rv.2)
    | .str =>
      let rn := readU32 inp1
      let rs := readBytes rn.1 rn.2
      ({ f1 with value := .vStr rs.1 }, rs.2)
    | .raw =>
      let rn := readU32 inp1
      let rs := readBytes rn.1 rn.2
      ({ f1 with value := .vRaw rs.1 }, rs.2)
    | .arrBool =>
      let rn := readU32 inp1
      let re := readU32s rn.1 rn.2
      ({ f1 with value := .vArrU32 (getArrU32 f.value ++ re.1) }, re.2)
    | .arrInt =>
      let rn := readU32 inp1
      let re := readU32s rn.1 rn.2
      ({ f1 with value := .vArrI32 (getArrI32 f.value ++ re.1) }, re.2)
    | .arrFloat =>
      let rn := readU32 inp1
      let re := readU32s rn.1 rn.2
      ({ f1 with value := .vArrF32 (getArrF32 f.value ++ re.1) }, re.2)
    | .arrStr =>
      let rn := readU32 inp1
      let re := readLPs rn.1 rn.2
      ({ f1 with value := .vArrStr (getArrStr f.value ++ re.1) }, re.2)
    | .arrRaw =>
      let rn := readU32 inp1
      let re := readLPs rn.1 rn.2
      ({ f1 with value := .vArrRaw (getArrRaw f.value ++ re.1) }, re.2)

/-- One iteration of the field loop in `glue_handler::deserialize`: switch
on the field's current `dtype`.  The `GLUE_DTYPE_NULL` case only runs
`parse_type`.  The `GLUE_DTYPE_RAW` case has no `break` in the source, so
after `glue_raw::parse` control falls through into the
`GLUE_DTYPE_ARRAY_BOOL` case, which runs `glue_arr<uint32_t>::parse` on the
same object through an incompatible cast: its tag read overwrites `dtype`
and its element reads advance the cursor; the element `push_back` calls go
through the mismatched object (undefined behavior in the source) and are
not representable in the value slot, so the model keeps the slot unchanged.
The final `GLUE_DTYPE_ARRAY_RAW` case also lacks a `break`, but it is the
last case, so falling out of the switch has no effect.  A `dtype` matching
no case label skips the field without consuming input. -/
def deserializeField (f : GlueField) (inp : GlueInbuf) : GlueField × GlueInbuf :=
  if f.dtype = 0 then
    let r := parseType f inp
    (r.2.1, r.2.2)
  else if f.dtype = tagOf f.kind then
    match f.kind with
    | .raw =>
      let r1 := classParse .raw f inp
      let r2 := parseType r1.1 r1.2
      if r2.1 = 0 then (r2.2.1, r2.2.2)
      else
        let rn := readU32 r2.2.2
        let re := readU32s rn.1 rn.2
        (r2.2.1, re.2)
    | k => classParse k f inp
  else (f, inp)

/-- The field loop of `glue_handler::deserialize`, threading the cursor
through the fields in declared order. -/
def deserializeFields : List GlueField → GlueInbuf → List GlueField × GlueInbuf
  | [], inp => ([], inp)
  | f :: fs, inp =>
    let r1 := deserializeField f inp
    let r2 := deserializeFields fs r1.2
    (r1.1 :: r2.1, r2.2)

/-- The three exceptions `glue_handler::deserialize` can throw, one per
header check; the prototype mismatch message embeds both the received and
the expected id. -/
inductive GlueError
  | badMagic
  | versionMismatch
  | protoMismatch (received expected : List Nat)
  deriving DecidableEq, Repr

/-- `glue_handler::deserialize`: check magic, then version, then the 8-byte
prototype id, throwing on the first mismatch; only then parse the fields in
declared order.  The field loop itself has no failure path. -/
def deserializeMsg (pid : List Nat) (flds : List GlueField) (inp : GlueInbuf) :
    Except GlueError (List GlueField × GlueInbuf) :=
  let r1 := readU32 inp
  if r1.1 ≠ GLUE_MAGIC then .error .badMagic
  else
    let r2 := readU32 r1.2
    if r2.1 ≠ GLUE_VERSION then .error .versionMismatch
    else
      let r3 := readBytes 8 r2.2
      if r3.1 ≠ pid then .error (.protoMismatch r3.1 pid)
      else .ok (deserializeFields flds r3.2)

/-- Memory holding the bytes of a list (and zero elsewhere — the source
would read whatever the surrounding heap holds; zero is one concrete
instance of that junk). -/
def memOf (bs : List Nat) : Nat → Nat := fun i => bs.getD i 0

/-- An input cursor freshly wrapped around a byte buffer. -/
def mkInbuf (bs : List Nat) : GlueInbuf := ⟨memOf bs, 0, 0⟩

/-- An input cursor over a byte buffer at a given offset and high-water
mark (used to state intermediate parsing facts). -/
def inbufAt (bs : List Nat) (c m : Nat) : GlueInbuf := ⟨memOf bs, c, m⟩

/-- The fields decoded by a deserialization, if it succeeded. -/
def decodedFields (r : Except GlueError (List GlueField × GlueInbuf)) :
    Option (List GlueField) :=
  match r with
  | .ok p => some p.1
  | .error _ => none

/-- The error of a failed deserialization, if any. -/
def decodeError (r : Except GlueError (List GlueField × GlueInbuf)) :
    Option GlueError :=
  match r with
  | .ok _ => none
  | .error e => some e

/-- The high-water mark of the cursor after a successful deserialization. -/
def decodedMaxRead (r : Except GlueError (List GlueField × GlueInbuf)) : Nat :=
  match r with
  | .ok p => p.2.maxRead
  | .error _ => 0

/-- A schema catalogue entry: prototype id and the declared field classes in
order (`GLUE_HANDLER` plus the field declaration lines). -/
structure Schema where
  pid : List Nat
  kinds : List FieldKind

/-- Fresh fields of a schema, as constructed by the message struct. -/
def freshFields (s : Schema) : List GlueField := s.kinds.map mkFresh

/-- glue_msg_sampling_sample_res: prototype id "ssam_res", fields
`success : bool`, `piece : raw`, `token : int`. -/
def ssam_res : Schema :=
  ⟨[115, 115, 97, 109, 95, 114, 101, 115], [.bool, .raw, .int]⟩

/-- glue_msg_tokenize_req: prototype id "tokn_req", fields `text : str`,
`special : bool`. -/
def tokn_req : Schema :=
  ⟨[116, 111, 107, 110, 95, 114, 101, 113], [.str, .bool]⟩

/-- glue_msg_set_options_req: prototype id "opti_req", field
`embeddings : bool`. -/
def opti_req : Schema :=
  ⟨[111, 112, 116, 105, 95, 114, 101, 113], [.bool]⟩

/-- glue_msg_get_logits_req: prototype id "glog_req", field `top_k : int`. -/
def glog_req : Schema :=
  ⟨[103, 108, 111, 103, 95, 114, 101, 113], [.int]⟩

/-- The boundary entry point `wllama_action` (src/cpp/wllama.cpp) as seen by
one action handler: `PARSE_REQ` deserializes the request into a fresh
message; an exception escaping it is caught by the surrounding try/catch,
which logs the text and returns a null pointer, so the caller observes
`none`; on success the handler's response is serialized and returned.  The
response contents depend on the inference engine and are abstracted by
`respond`. -/
def wllama_action (s : Schema) (respond : List GlueField → List Nat)
    (inp : GlueInbuf) : Option (List Nat) :=
  match deserializeMsg s.pid (freshFields s) inp with
  | .error _ => none
  | .ok p => some (respond p.1)

/-! ## General lemmas about the byte-level codec -/

theorem writeU32_length (v : Nat) : (writeU32 v).length = 4 := rfl

theorem memOf_append (pre l2 : List Nat) (k : Nat) (hk : pre.length ≤ k) :
    memOf (pre ++ l2) k = memOf l2 (k - pre.length) :=
  List.getD_append_right _ _ _ _ hk

/-- Reading back four little-endian bytes yields the written value modulo
2^32. -/
theorem u32_decomp (v : Nat) :
    v % 256 + 256 * (v / 256 % 256) + 65536 * (v / 65536 % 256) +
      16777216 * (v / 16777216 % 256) = v % 4294967296 := by
  omega

/-- A u32 read positioned at an encoded u32 returns it (modulo 2^32) and
advances the cursor by four. -/
theorem readU32_encAt {b p q : List Nat} {v c m : Nat}
    (hbs : b = p ++ (writeU32 v ++ q)) (hc : c = p.length) :
    readU32 (inbufAt b c m) =
      (v % 4294967296, inbufAt b (c + 4) (max m (c + 4))) := by
  subst hbs hc
  have hb : ∀ k, k < 4 →
      memOf (p ++ (writeU32 v ++ q)) (p.length + k) =
        (writeU32 v).getD k 0 := by
    intro k hk
    rw [memOf_append _ _ _ (Nat.le_add_right _ _)]
    unfold memOf
    rw [Nat.add_sub_cancel_left,
      List.getD_append _ _ _ _ (by simpa [writeU32_length] using hk)]
  unfold readU32 inbufAt byteAt
  refine Prod.ext ?_ rfl
  show memOf _ p.length % 256 + 256 * (memOf _ (p.length + 1) % 256) +
      65536 * (memOf _ (p.length + 2) % 256) +
      16777216 * (memOf _ (p.length + 3) % 256) = v % 4294967296
  have h0 := hb 0 (by omega)
  rw [Nat.add_zero] at h0
  rw [h0, hb 1 (by omega), hb 2 (by omega), hb 3 (by omega)]
  simp only [writeU32, List.getD_cons_zero, List.getD_cons_succ]
  omega

/-- A bulk byte read positioned at a stored byte string returns it verbatim
and advances the cursor past it. -/
theorem readBytes_encAt {bs pre post : List Nat} {c m : Nat} (mid : List Nat)
    (hbs : bs = pre ++ (mid ++ post)) (hc : c = pre.length)
    (hmid : ∀ b ∈ mid, b < 256) :
    ∃ m2, readBytes mid.length (inbufAt bs c m) =
      (mid, inbufAt bs (c + mid.length) m2) := by
  subst hbs hc
  refine ⟨if mid.length = 0 then m else max m (pre.length + mid.length), ?_⟩
  unfold readBytes inbufAt byteAt
  refine Prod.ext ?_ rfl
  show (List.range mid.length).map
      (fun i => memOf (pre ++ (mid ++ post)) (pre.length + i) % 256) = mid
  refine List.ext_getElem (by simp) ?_
  intro n h1 h2
  rw [List.getElem_map, List.getElem_range,
    memOf_append _ _ _ (Nat.le_add_right _ _)]
  unfold memOf
  rw [Nat.add_sub_cancel_left,
    List.getD_append _ _ _ _ h2, List.getD_eq_getElem _ _ h2,
    Nat.mod_eq_of_lt (hmid _ (List.getElem_mem h2))]

/-- Elements below a modulus are fixed points of reduction by it. -/
theorem map_mod_eq_self {c : Nat} : ∀ {ys : List Nat}, (∀ y ∈ ys, y < c) →
    ys.map (fun y => y % c) = ys
  | [], _ => rfl
  | y :: ys, h => by
    simp only [List.map_cons, List.cons.injEq]
    exact ⟨Nat.mod_eq_of_lt (h y (by simp)),
      map_mod_eq_self fun z hz => h z (by simp [hz])⟩

/-- The element loop of `glue_arr<T>::parse` for 4-byte elements, run over
the bytes that `serialize` emitted for a list `ys`, returns the elements
reduced modulo 2^32 and leaves the cursor after the encoded block. -/
theorem readU32s_enc : ∀ (ys : List Nat) (pre post bs : List Nat) (c m : Nat),
    bs = pre ++ (ys.flatMap writeU32 ++ post) → c = pre.length →
    ∃ m2, readU32s ys.length (inbufAt bs c m) =
      (ys.map (fun y => y % 4294967296),
       inbufAt bs (c + 4 * ys.length) m2)
  | [], pre, post, bs, c, m, hbs, hc => ⟨m, by simp [readU32s]⟩
  | y :: ys, pre, post, bs, c, m, hbs, hc => by
    have hbs1 : bs = pre ++ (writeU32 y ++ (ys.flatMap writeU32 ++ post)) := by
      simp [hbs, List.flatMap_cons, List.append_assoc]
    obtain ⟨m2, ih⟩ := readU32s_enc ys (pre ++ writeU32 y) post bs (c + 4)
      (max m (c + 4))
      (by simp [hbs, List.flatMap_cons, List.append_assoc])
      (by simp [hc, writeU32_length])
    refine ⟨m2, ?_⟩
    show readU32s (ys.length + 1) (inbufAt bs c m) = _
    unfold readU32s
    rw [readU32_encAt hbs1 hc]
    dsimp only
    rw [ih]
    refine Prod.ext rfl ?_
    show inbufAt bs (c + 4 + 4 * ys.length) m2 = _
    have h4 : c + 4 + 4 * ys.length = c + 4 * (y :: ys).length := by
      simp only [List.length_cons]; omega
    rw [h4]

/-- The element loop of `glue_arr<T>::parse` for length-prefixed elements
(strings and raw buffers), run over the bytes `serialize` emitted for a
list of byte strings, returns them verbatim. -/
theorem readLPs_enc :
    ∀ (es : List (List Nat)) (pre post bs : List Nat) (c m : Nat),
    bs = pre ++ (es.flatMap (fun e => writeU32 e.length ++ e) ++ post) →
    c = pre.length →
    (∀ e ∈ es, e.length < 4294967296 ∧ ∀ b ∈ e, b < 256) →
    ∃ m2, readLPs es.length (inbufAt bs c m) =
      (es, inbufAt bs
        (c + (es.flatMap (fun e => writeU32 e.length ++ e)).length) m2)
  | [], pre, post, bs, c, m, hbs, hc, hes => ⟨m, by simp [readLPs]⟩
  | e :: es, pre, post, bs, c, m, hbs, hc, hes => by
    have hlen : e.length < 4294967296 := (hes e (by simp)).1
    have hbytes : ∀ b ∈ e, b < 256 := (hes e (by simp)).2
    have hbs1 : bs = pre ++ (writeU32 e.length ++
        (e ++ (es.flatMap (fun x => writeU32 x.length ++ x) ++ post))) := by
      simp [hbs, List.flatMap_cons, List.append_assoc]
    have hbs2 : bs = (pre ++ writeU32 e.length) ++
        (e ++ (es.flatMap (fun x => writeU32 x.length ++ x) ++ post)) := by
      simp [hbs1, List.append_assoc]
    obtain ⟨mB, hB⟩ := readBytes_encAt (c := c + 4) (m := max m (c + 4)) e hbs2
      (by simp [hc, writeU32_length]) hbytes
    obtain ⟨m2, ih⟩ := readLPs_enc es (pre ++ writeU32 e.length ++ e) post bs
      (c + 4 + e.length) mB
      (by simp [hbs, List.flatMap_cons, List.append_assoc])
      (by simp [hc, writeU32_length]; omega)
      (fun x hx => hes x (by simp [hx]))
    refine ⟨m2, ?_⟩
    show readLPs (es.length + 1) (inbufAt bs c m) = _
    unfold readLPs
    rw [readU32_encAt hbs1 hc]
    dsimp only
    rw [Nat.mod_eq_of_lt hlen, hB]
    dsimp only
    rw [ih]
    refine Prod.ext rfl ?_
    show inbufAt bs
      (c + 4 + e.length + (es.flatMap fun x => writeU32 x.length ++ x).length)
      m2 = _
    have h4 : c + 4 + e.length +
        (es.flatMap fun x => writeU32 x.length ++ x).length =
        c + ((e :: es).flatMap fun x => writeU32 x.length ++ x).length := by
      simp only [List.flatMap_cons, List.length_append, writeU32_length]
      omega
    rw [h4]

/-! ## Claim theorems -/

/-- C1: the claim states that decode of encode is the identity for every
schema of the catalogue and every well-formed field assignment.  It fails:
the `GLUE_DTYPE_RAW` case of the deserializer switch has no `break`, so
decoding the encoding of a `glue_msg_sampling_sample_res` with
`success = true`, `piece` present (empty) and `token = 0` falls through
after the raw field into the array-bool parse, which consumes the token
field's tag (overwriting the raw field's dtype with 2) and its payload as
an element count; the token field then reads past the end of the buffer
and decodes as absent.  The decoded message differs from the encoded one. -/
theorem C1_raw_fallthrough_breaks_roundtrip :
    decodedFields (deserializeMsg ssam_res.pid (freshFields ssam_res)
        (mkInbuf (serializeMsg ssam_res.pid
          [⟨.bool, 1, .vBool true⟩, ⟨.raw, 5, .vRaw []⟩, ⟨.int, 2, .vI32 0⟩])))
      = some [⟨.bool, 1, .vBool true⟩, ⟨.raw, 2, .vRaw []⟩, ⟨.int, 0, .vI32 0⟩]
    ∧ ([⟨.bool, 1, .vBool true⟩, ⟨.raw, 2, .vRaw []⟩, ⟨.int, 0, .vI32 0⟩] :
        List GlueField)
      ≠ [⟨.bool, 1, .vBool true⟩, ⟨.raw, 5, .vRaw []⟩, ⟨.int, 2, .vI32 0⟩] := by
  decide

/-- C5: the claim states that a decoded `Null` tag marks the field absent
and consumes no further bytes for that field, for every declared kind.
For a raw-declared field this fails: in the same message as C1 but with
`piece` sent absent, the wire bytes at offset 24 are exactly the four-byte
null tag, yet after the missing `break` the fall-through parse reads the
next field's tag into the raw field's dtype, leaving it *present* (as
Int32) and consuming the following bytes, so the token field decodes as
absent. -/
theorem C5_null_raw_field_not_marked_absent :
    decodedFields (deserializeMsg ssam_res.pid (freshFields ssam_res)
        (mkInbuf (serializeMsg ssam_res.pid
          [⟨.bool, 1, .vBool true⟩, ⟨.raw, 0, .vRaw []⟩, ⟨.int, 2, .vI32 0⟩])))
      = some [⟨.bool, 1, .vBool true⟩, ⟨.raw, 2, .vRaw []⟩, ⟨.int, 0, .vI32 0⟩]
    ∧ ((serializeMsg ssam_res.pid
          [⟨.bool, 1, .vBool true⟩, ⟨.raw, 0, .vRaw []⟩,
            ⟨.int, 2, .vI32 0⟩]).drop 24).take 4 = writeU32 0 := by
  decide

/-- C2 counterexample: the claim states that decoding a strict prefix of a
valid message fails with a TruncatedMessage error and never reads outside
the span.  Both parts fail: decoding the first 25 bytes of a valid 34-byte
`glue_msg_tokenize_req` encoding succeeds (no error of any kind), and the
cursor's high-water mark reaches 30, five bytes past the supplied span. -/
theorem C2_truncated_decode_not_detected :
    (decodedFields (deserializeMsg tokn_req.pid (freshFields tokn_req)
        (mkInbuf ((serializeMsg tokn_req.pid
          [⟨.str, 4, .vStr [104, 105]⟩,
            ⟨.bool, 1, .vBool true⟩]).take 25)))).isSome = true
    ∧ decodedMaxRead (deserializeMsg tokn_req.pid (freshFields tokn_req)
        (mkInbuf ((serializeMsg tokn_req.pid
          [⟨.str, 4, .vStr [104, 105]⟩,
            ⟨.bool, 1, .vBool true⟩]).take 25))) = 30
    ∧ ((serializeMsg tokn_req.pid
          [⟨.str, 4, .vStr [104, 105]⟩,
            ⟨.bool, 1, .vBool true⟩]).take 25).length = 25
    ∧ 25 < 30 := by
  decide

/-- C2 amended: the read cursor performs no bounds check at all, so once
the three header checks pass, deserialization always returns a decoded
message — whatever the length of the supplied buffer, including a buffer
cut short mid-field.  No truncation error exists in the code (the only
failure sites are the three header checks). -/
theorem C2_decode_never_fails_after_header (pid : List Nat)
    (flds : List GlueField) (inp : GlueInbuf)
    (h1 : (readU32 inp).1 = GLUE_MAGIC)
    (h2 : (readU32 (readU32 inp).2).1 = GLUE_VERSION)
    (h3 : (readBytes 8 (readU32 (readU32 inp).2).2).1 = pid) :
    deserializeMsg pid flds inp =
      .ok (deserializeFields flds (readBytes 8 (readU32 (readU32 inp).2).2).2) := by
  unfold deserializeMsg
  simp [h1, h2, h3]

/-- Witness for C2: the truncated buffer of the counterexample satisfies
the header checks, so decoding it succeeds. -/
theorem C2_decode_never_fails_after_header_witness :
    deserializeMsg tokn_req.pid (freshFields tokn_req)
        (mkInbuf ((serializeMsg tokn_req.pid
          [⟨.str, 4, .vStr [104, 105]⟩, ⟨.bool, 1, .vBool true⟩]).take 25))
      = .ok (deserializeFields (freshFields tokn_req)
          (readBytes 8 (readU32 (readU32 (mkInbuf ((serializeMsg tokn_req.pid
            [⟨.str, 4, .vStr [104, 105]⟩,
              ⟨.bool, 1, .vBool true⟩]).take 25))).2).2).2) :=
  C2_decode_never_fails_after_header _ _ _ (by decide) (by decide) (by decide)

/-- C3: the deserializer validates the header in order — a wrong first
u32 fails with the bad-magic error; with a correct magic, a wrong second
u32 fails with the version-mismatch error; with both correct, a wrong
8-byte prototype id fails with the prototype-mismatch error carrying both
the received and the expected id.  In each failure the result is the error
alone: the field loop is never entered. -/
theorem C3_header_validation (pid : List Nat) (flds : List GlueField)
    (inp : GlueInbuf) :
    ((readU32 inp).1 ≠ GLUE_MAGIC →
      deserializeMsg pid flds inp = .error .badMagic)
    ∧ ((readU32 inp).1 = GLUE_MAGIC →
        (readU32 (readU32 inp).2).1 ≠ GLUE_VERSION →
        deserializeMsg pid flds inp = .error .versionMismatch)
    ∧ ((readU32 inp).1 = GLUE_MAGIC →
        (readU32 (readU32 inp).2).1 = GLUE_VERSION →
        (readBytes 8 (readU32 (readU32 inp).2).2).1 ≠ pid →
        deserializeMsg pid flds inp =
          .error (.protoMismatch
            (readBytes 8 (readU32 (readU32 inp).2).2).1 pid)) := by
  refine ⟨fun h1 => ?_, fun h1 h2 => ?_, fun h1 h2 h3 => ?_⟩ <;>
    · unfold deserializeMsg
      simp_all

/-- Witness for C3: concrete buffers exercising each of the three header
failures against the `opti_req` schema. -/
theorem C3_header_validation_witness :
    deserializeMsg opti_req.pid []
        (mkInbuf (writeU32 5 ++ writeU32 GLUE_VERSION ++ opti_req.pid))
      = .error .badMagic
    ∧ deserializeMsg opti_req.pid []
        (mkInbuf (writeU32 GLUE_MAGIC ++ writeU32 9 ++ opti_req.pid))
      = .error .versionMismatch
    ∧ deserializeMsg opti_req.pid []
        (mkInbuf (writeU32 GLUE_MAGIC ++ writeU32 GLUE_VERSION ++ glog_req.pid))
      = .error (.protoMismatch glog_req.pid opti_req.pid) := by
  refine ⟨(C3_header_validation _ _ _).1 (by decide),
    (C3_header_validation _ _ _).2.1 (by decide) (by decide), ?_⟩
  have h := (C3_header_validation opti_req.pid []
      (mkInbuf (writeU32 GLUE_MAGIC ++ writeU32 GLUE_VERSION ++
        glog_req.pid))).2.2 (by decide) (by decide) (by decide)
  have hr : (readBytes 8 (readU32 (readU32 (mkInbuf
      (writeU32 GLUE_MAGIC ++ writeU32 GLUE_VERSION ++ glog_req.pid))).2).2).1
      = glog_req.pid := by decide
  rw [hr] at h
  exact h

/-- C7 counterexample: the claim states that a decode failure at the
boundary is reported as a structured error and never as a silent null
return.  In the code, `wllama_action` catches the exception, logs its
text, and returns a null pointer: a request buffer with a corrupted magic
yields `none`. -/
theorem C7_decode_failure_returns_none :
    wllama_action tokn_req (fun _ => [])
      (mkInbuf (writeU32 0 ++ writeU32 GLUE_VERSION ++ tokn_req.pid)) = none := by
  decide

/-- C7 amended: whenever deserialization of the request fails, the
boundary call returns a null pointer (after logging); no structured error
value crosses the boundary. -/
theorem C7_boundary_null_on_decode_error (s : Schema)
    (respond : List GlueField → List Nat) (inp : GlueInbuf) (e : GlueError)
    (h : decodeError (deserializeMsg s.pid (freshFields s) inp) = some e) :
    wllama_action s respond inp = none := by
  unfold wllama_action
  cases hE : deserializeMsg s.pid (freshFields s) inp with
  | error e2 => rfl
  | ok p =>
    unfold decodeError at h
    rw [hE] at h
    simp at h

/-- Witness for C7: a `tokn_req` buffer whose magic word is 7 makes the
boundary call return null. -/
theorem C7_boundary_null_on_decode_error_witness :
    wllama_action tokn_req (fun _ => [])
      (mkInbuf (writeU32 7 ++ writeU32 GLUE_VERSION ++ tokn_req.pid)) = none :=
  C7_boundary_null_on_decode_error tokn_req _ _ .badMagic (by decide)

/-- C4 counterexample: the claim states that a non-null wire tag differing
from the declared kind raises an error.  It does not: a bool-declared
field (`opti_req.embeddings`) receiving the Int32 tag 2 with payload 7
decodes without any error, storing tag 2 into the field's dtype and
reinterpreting the payload word as the boolean `true`. -/
theorem C4_mismatched_tag_decoded_ok :
    decodedFields (deserializeMsg opti_req.pid (freshFields opti_req)
        (mkInbuf (writeU32 GLUE_MAGIC ++ writeU32 GLUE_VERSION ++
          opti_req.pid ++ writeU32 2 ++ writeU32 7)))
      = some [⟨.bool, 2, .vBool true⟩] := by
  decide

/-- C8 counterexample: the claim states that a tag outside 0..10 fails
with an UnsupportedTag error.  No such check exists: an int-declared field
(`glog_req.top_k`) receiving tag 99 decodes without error, storing 99 into
dtype and proceeding to interpret the following bytes as the payload. -/
theorem C8_out_of_range_tag_decoded_ok :
    decodedFields (deserializeMsg glog_req.pid (freshFields glog_req)
        (mkInbuf (writeU32 GLUE_MAGIC ++ writeU32 GLUE_VERSION ++
          glog_req.pid ++ writeU32 99 ++ writeU32 7)))
      = some [⟨.int, 99, .vI32 7⟩] := by
  decide

/-- C4 amended: `parse_type` stores whatever non-null tag arrives into the
field's dtype without comparing it to the declared kind, and the payload
is then read according to the field's declared parse routine — silent
reinterpretation, never an error.  Stated for every non-raw field whose
dtype is its declared tag (fresh messages), with the payload fact made
explicit for a bool-declared field. -/
theorem C4_arrived_tag_overwrites_dtype (f : GlueField) (inp : GlueInbuf)
    (hk : f.kind ≠ .raw) (hd : f.dtype = tagOf f.kind)
    (ht : (readU32 inp).1 ≠ 0) :
    (deserializeField f inp).1.dtype = (readU32 inp).1
    ∧ (deserializeField f inp).1.kind = f.kind
    ∧ (f.kind = .bool →
        (deserializeField f inp).1.value
          = .vBool ((readU32 (readU32 inp).2).1 != 0)) := by
  obtain ⟨k, d, v⟩ := f
  simp only at hd hk ⊢
  subst hd
  cases k <;>
    simp_all [deserializeField, classParse, parseType, tagOf]

/-- Witness for C4: a fresh bool field fed the Int32 tag 2 and payload 7. -/
theorem C4_arrived_tag_overwrites_dtype_witness :
    (deserializeField (mkFresh .bool)
        (mkInbuf (writeU32 2 ++ writeU32 7))).1.dtype
      = (readU32 (mkInbuf (writeU32 2 ++ writeU32 7))).1
    ∧ (deserializeField (mkFresh .bool)
        (mkInbuf (writeU32 2 ++ writeU32 7))).1.kind = (mkFresh .bool).kind
    ∧ ((mkFresh .bool).kind = .bool →
        (deserializeField (mkFresh .bool)
            (mkInbuf (writeU32 2 ++ writeU32 7))).1.value
          = .vBool ((readU32 (readU32 (mkInbuf
              (writeU32 2 ++ writeU32 7))).2).1 != 0)) :=
  C4_arrived_tag_overwrites_dtype (mkFresh .bool) _ (by decide) (by decide)
    (by decide)

/-- C8 amended: no range check exists on the arrived tag: a tag outside
the closed enumeration 0..10 is stored verbatim into the field's dtype and
decode proceeds to read the payload with the declared kind's routine (made
explicit for an int-declared field). -/
theorem C8_out_of_range_tag_stored (f : GlueField) (inp : GlueInbuf)
    (hk : f.kind ≠ .raw) (hd : f.dtype = tagOf f.kind)
    (ht : 10 < (readU32 inp).1) :
    (deserializeField f inp).1.dtype = (readU32 inp).1
    ∧ (f.kind = .int →
        (deserializeField f inp).1.value
          = .vI32 (readU32 (readU32 inp).2).1) := by
  have ht0 : (readU32 inp).1 ≠ 0 := by omega
  obtain ⟨k, d, v⟩ := f
  simp only at hd hk ⊢
  subst hd
  cases k <;>
    simp_all [deserializeField, classParse, parseType, tagOf]

/-- Witness for C8: a fresh int field fed the unknown tag 99 and
payload 7. -/
theorem C8_out_of_range_tag_stored_witness :
    (deserializeField (mkFresh .int)
        (mkInbuf (writeU32 99 ++ writeU32 7))).1.dtype
      = (readU32 (mkInbuf (writeU32 99 ++ writeU32 7))).1
    ∧ ((mkFresh .int).kind = .int →
        (deserializeField (mkFresh .int)
            (mkInbuf (writeU32 99 ++ writeU32 7))).1.value
          = .vI32 (readU32 (readU32 (mkInbuf
              (writeU32 99 ++ writeU32 7))).2).1) :=
  C8_out_of_range_tag_stored (mkFresh .int) _ (by decide) (by decide)
    (by decide)

/-- C6: wire layout of every serialized message — magic at offset 0,
version at offset 4, the 8-byte prototype id verbatim at offset 8, the
encoded fields in declared order from offset 16 with no message-length
word in between; and the closed tag enumeration Null=0, Bool=1, Int32=2,
Float32=3, String=4, Raw=5, ArrayBool=6, ArrayInt32=7, ArrayFloat32=8,
ArrayString=9, ArrayRaw=10 (an absent field emits the null tag 0, a
present field opens with its declared tag). -/
theorem C6_wire_layout (pid : List Nat) (flds : List GlueField)
    (f : GlueField) (hpid : pid.length = 8) :
    (serializeMsg pid flds).take 4 = writeU32 GLUE_MAGIC
    ∧ ((serializeMsg pid flds).drop 4).take 4 = writeU32 GLUE_VERSION
    ∧ ((serializeMsg pid flds).drop 8).take 8 = pid
    ∧ (serializeMsg pid flds).drop 16 = flds.flatMap serializeField
    ∧ tagOf .bool = 1 ∧ tagOf .int = 2 ∧ tagOf .float = 3 ∧ tagOf .str = 4
    ∧ tagOf .raw = 5 ∧ tagOf .arrBool = 6 ∧ tagOf .arrInt = 7
    ∧ tagOf .arrFloat = 8 ∧ tagOf .arrStr = 9 ∧ tagOf .arrRaw = 10
    ∧ (f.dtype = 0 → serializeField f = writeU32 0)
    ∧ (f.dtype = tagOf f.kind →
        (serializeField f).take 4 = writeU32 (tagOf f.kind)) := by
  have hnz : ∀ k, tagOf k ≠ 0 := fun k => by cases k <;> simp [tagOf]
  have e1 : serializeMsg pid flds = writeU32 GLUE_MAGIC ++
      (writeU32 GLUE_VERSION ++ (pid ++ flds.flatMap serializeField)) := by
    simp [serializeMsg, List.append_assoc]
  have e2 : serializeMsg pid flds =
      (writeU32 GLUE_MAGIC ++ writeU32 GLUE_VERSION) ++
      (pid ++ flds.flatMap serializeField) := by
    simp [serializeMsg, List.append_assoc]
  have e3 : serializeMsg pid flds =
      ((writeU32 GLUE_MAGIC ++ writeU32 GLUE_VERSION) ++ pid) ++
      flds.flatMap serializeField := by
    simp [serializeMsg, List.append_assoc]
  refine ⟨?_, ?_, ?_, ?_, rfl, rfl, rfl, rfl, rfl, rfl, rfl, rfl, rfl, rfl,
    ?_, ?_⟩
  · rw [e1]; exact List.take_left' (writeU32_length _)
  · rw [e1, List.drop_left' (writeU32_length _)]
    exact List.take_left' (writeU32_length _)
  · rw [e2, List.drop_left' (by simp [writeU32_length]),
      List.take_left' hpid]
  · rw [e3, List.drop_left' (by simp [writeU32_length, hpid])]
  · intro h0
    simp [serializeField, h0]
  · intro hd
    unfold serializeField
    rw [if_neg (by rw [hd]; exact hnz f.kind), if_pos hd,
      List.take_left' (writeU32_length _), hd]

/-- Witness for C6: the layout facts at the `opti_req` schema with one
present bool field, checked together with a null-serialized raw field. -/
theorem C6_wire_layout_witness :
    (serializeMsg opti_req.pid [mkFresh .bool]).take 4 = writeU32 GLUE_MAGIC
    ∧ ((serializeMsg opti_req.pid [mkFresh .bool]).drop 4).take 4
      = writeU32 GLUE_VERSION
    ∧ ((serializeMsg opti_req.pid [mkFresh .bool]).drop 8).take 8
      = opti_req.pid
    ∧ (serializeMsg opti_req.pid [mkFresh .bool]).drop 16
      = [mkFresh .bool].flatMap serializeField
    ∧ tagOf .bool = 1 ∧ tagOf .int = 2 ∧ tagOf .float = 3 ∧ tagOf .str = 4
    ∧ tagOf .raw = 5 ∧ tagOf .arrBool = 6 ∧ tagOf .arrInt = 7
    ∧ tagOf .arrFloat = 8 ∧ tagOf .arrStr = 9 ∧ tagOf .arrRaw = 10
    ∧ ((setNull (mkFresh .raw)).dtype = 0 →
        serializeField (setNull (mkFresh .raw)) = writeU32 0)
    ∧ ((setNull (mkFresh .raw)).dtype = tagOf (setNull (mkFresh .raw)).kind →
        (serializeField (setNull (mkFresh .raw))).take 4
          = writeU32 (tagOf (setNull (mkFresh .raw)).kind)) :=
  C6_wire_layout opti_req.pid [mkFresh .bool] (setNull (mkFresh .raw))
    (by decide)

/-- C9: the nullable marking has no behavioral effect: the
`GLUE_FIELD_NULLABLE` macro expands to exactly the `GLUE_FIELD`
definition, every field (nullable-marked or not) can be set absent and
then serializes as exactly the null tag, and every field class accepts a
null tag on decode, marking the field absent and leaving its value slot
untouched after consuming only the tag word. -/
theorem C9_nullable_marking_no_effect (k : FieldKind) (f : GlueField)
    (rest : List Nat) :
    GLUE_FIELD_NULLABLE_make k = GLUE_FIELD_make k
    ∧ serializeField (setNull f) = writeU32 0
    ∧ classParse k f (mkInbuf (writeU32 0 ++ rest))
      = ({ f with dtype := 0 }, inbufAt (writeU32 0 ++ rest) 4 4) := by
  refine ⟨rfl, by simp [serializeField, setNull], ?_⟩
  show classParse k f (inbufAt (writeU32 0 ++ rest) 0 0) = _
  unfold classParse parseType
  rw [readU32_encAt (p := ([] : List Nat)) (q := rest) (v := 0)
    (b := writeU32 0 ++ rest) (c := 0) (m := 0) (by simp) (by simp)]
  simp

/-- C10: array field decode does not reset prior contents — the element
loop of `glue_arr<T>::parse` appends with `push_back` after a `reserve`,
so decoding a serialized array of `n` elements into a field already
holding `k` elements yields the `k` old elements followed by the `n`
decoded ones, for all five array kinds.  Decode is therefore value-correct
only into a freshly constructed message, whose arrays are empty. -/
theorem C10_array_parse_appends (xs ys : List Nat) (pss ess : List (List Nat))
    (post : List Nat) (m : Nat)
    (hlen : ys.length < 4294967296)
    (hys : ∀ y ∈ ys, y < 4294967296)
    (heslen : ess.length < 4294967296)
    (hess : ∀ e ∈ ess, e.length < 4294967296 ∧ ∀ b ∈ e, b < 256) :
    (deserializeField ⟨.arrBool, 6, .vArrU32 xs⟩
        (inbufAt (serializeField ⟨.arrBool, 6, .vArrU32 ys⟩ ++ post) 0 m)).1
      = ⟨.arrBool, 6, .vArrU32 (xs ++ ys)⟩
    ∧ (deserializeField ⟨.arrInt, 7, .vArrI32 xs⟩
        (inbufAt (serializeField ⟨.arrInt, 7, .vArrI32 ys⟩ ++ post) 0 m)).1
      = ⟨.arrInt, 7, .vArrI32 (xs ++ ys)⟩
    ∧ (deserializeField ⟨.arrFloat, 8, .vArrF32 xs⟩
        (inbufAt (serializeField ⟨.arrFloat, 8, .vArrF32 ys⟩ ++ post) 0 m)).1
      = ⟨.arrFloat, 8, .vArrF32 (xs ++ ys)⟩
    ∧ (deserializeField ⟨.arrStr, 9, .vArrStr pss⟩
        (inbufAt (serializeField ⟨.arrStr, 9, .vArrStr ess⟩ ++ post) 0 m)).1
      = ⟨.arrStr, 9, .vArrStr (pss ++ ess)⟩
    ∧ (deserializeField ⟨.arrRaw, 10, .vArrRaw pss⟩
        (inbufAt (serializeField ⟨.arrRaw, 10, .vArrRaw ess⟩ ++ post) 0 m)).1
      = ⟨.arrRaw, 10, .vArrRaw (pss ++ ess)⟩ := by
  refine ⟨?_, ?_, ?_, ?_, ?_⟩
  · show (classParse .arrBool ⟨.arrBool, 6, .vArrU32 xs⟩
        (inbufAt (serializeField ⟨.arrBool, 6, .vArrU32 ys⟩ ++ post) 0 m)).1 = _
    obtain ⟨m3, h3⟩ := readU32s_enc ys (writeU32 6 ++ writeU32 ys.length) post
      (serializeField ⟨.arrBool, 6, .vArrU32 ys⟩ ++ post) (0 + 4 + 4)
      (max (max m (0 + 4)) (0 + 4 + 4))
      (by simp [serializeField, payloadBytes, tagOf, List.append_assoc])
      (by simp [writeU32_length])
    rw [map_mod_eq_self hys] at h3
    unfold classParse parseType
    rw [readU32_encAt (p := ([] : List Nat))
      (q := writeU32 ys.length ++ (ys.flatMap writeU32 ++ post)) (v := 6)
      (by simp [serializeField, payloadBytes, tagOf, List.append_assoc])
      (by simp)]
    rw [Nat.mod_eq_of_lt (by norm_num : (6 : Nat) < 4294967296)]
    dsimp only
    rw [if_neg (by decide : ¬(6 : Nat) = 0)]
    rw [readU32_encAt (p := writeU32 6)
      (q := ys.flatMap writeU32 ++ post) (v := ys.length)
      (by simp [serializeField, payloadBytes, tagOf, List.append_assoc])
      (by simp [writeU32_length])]
    rw [Nat.mod_eq_of_lt hlen]
    dsimp only
    rw [h3]
    simp [getArrU32]
  · show (classParse .arrInt ⟨.arrInt, 7, .vArrI32 xs⟩
        (inbufAt (serializeField ⟨.arrInt, 7, .vArrI32 ys⟩ ++ post) 0 m)).1 = _
    obtain ⟨m3, h3⟩ := readU32s_enc ys (writeU32 7 ++ writeU32 ys.length) post
      (serializeField ⟨.arrInt, 7, .vArrI32 ys⟩ ++ post) (0 + 4 + 4)
      (max (max m (0 + 4)) (0 + 4 + 4))
      (by simp [serializeField, payloadBytes, tagOf, List.append_assoc])
      (by simp [writeU32_length])
    rw [map_mod_eq_self hys] at h3
    unfold classParse parseType
    rw [readU32_encAt (p := ([] : List Nat))
      (q := writeU32 ys.length ++ (ys.flatMap writeU32 ++ post)) (v := 7)
      (by simp [serializeField, payloadBytes, tagOf, List.append_assoc])
      (by simp)]
    rw [Nat.mod_eq_of_lt (by norm_num : (7 : Nat) < 4294967296)]
    dsimp only
    rw [if_neg (by decide : ¬(7 : Nat) = 0)]
    rw [readU32_encAt (p := writeU32 7)
      (q := ys.flatMap writeU32 ++ post) (v := ys.length)
      (by simp [serializeField, payloadBytes, tagOf, List.append_assoc])
      (by simp [writeU32_length])]
    rw [Nat.mod_eq_of_lt hlen]
    dsimp only
    rw [h3]
    simp [getArrI32]
  · show (classParse .arrFloat ⟨.arrFloat, 8, .vArrF32 xs⟩
        (inbufAt (serializeField ⟨.arrFloat, 8, .vArrF32 ys⟩ ++ post) 0 m)).1 = _
    obtain ⟨m3, h3⟩ := readU32s_enc ys (writeU32 8 ++ writeU32 ys.length) post
      (serializeField ⟨.arrFloat, 8, .vArrF32 ys⟩ ++ post) (0 + 4 + 4)
      (max (max m (0 + 4)) (0 + 4 + 4))
      (by simp [serializeField, payloadBytes, tagOf, List.append_assoc])
      (by simp [writeU32_length])
    rw [map_mod_eq_self hys] at h3
    unfold classParse parseType
    rw [readU32_encAt (p := ([] : List Nat))
      (q := writeU32 ys.length ++ (ys.flatMap writeU32 ++ post)) (v := 8)
      (by simp [serializeField, payloadBytes, tagOf, List.append_assoc])
      (by simp)]
    rw [Nat.mod_eq_of_lt (by norm_num : (8 : Nat) < 4294967296)]
    dsimp only
    rw [if_neg (by decide : ¬(8 : Nat) = 0)]
    rw [readU32_encAt (p := writeU32 8)
      (q := ys.flatMap writeU32 ++ post) (v := ys.length)
      (by simp [serializeField, payloadBytes, tagOf, List.append_assoc])
      (by simp [writeU32_length])]
    rw [Nat.mod_eq_of_lt hlen]
    dsimp only
    rw [h3]
    simp [getArrF32]
  · show (classParse .arrStr ⟨.arrStr, 9, .vArrStr pss⟩
        (inbufAt (serializeField ⟨.arrStr, 9, .vArrStr ess⟩ ++ post) 0 m)).1 = _
    obtain ⟨m3, h3⟩ := readLPs_enc ess (writeU32 9 ++ writeU32 ess.length) post
      (serializeField ⟨.arrStr, 9, .vArrStr ess⟩ ++ post) (0 + 4 + 4)
      (max (max m (0 + 4)) (0 + 4 + 4))
      (by simp [serializeField, payloadBytes, tagOf, List.append_assoc])
      (by simp [writeU32_length]) hess
    unfold classParse parseType
    rw [readU32_encAt (p := ([] : List Nat))
      (q := writeU32 ess.length ++
        (ess.flatMap (fun e => writeU32 e.length ++ e) ++ post)) (v := 9)
      (by simp [serializeField, payloadBytes, tagOf, List.append_assoc])
      (by simp)]
    rw [Nat.mod_eq_of_lt (by norm_num : (9 : Nat) < 4294967296)]
    dsimp only
    rw [if_neg (by decide : ¬(9 : Nat) = 0)]
    rw [readU32_encAt (p := writeU32 9)
      (q := ess.flatMap (fun e => writeU32 e.length ++ e) ++ post)
      (v := ess.length)
      (by simp [serializeField, payloadBytes, tagOf, List.append_assoc])
      (by simp [writeU32_length])]
    rw [Nat.mod_eq_of_lt heslen]
    dsimp only
    rw [h3]
    simp [getArrStr]
  · show (classParse .arrRaw ⟨.arrRaw, 10, .vArrRaw pss⟩
        (inbufAt (serializeField ⟨.arrRaw, 10, .vArrRaw ess⟩ ++ post) 0 m)).1 = _
    obtain ⟨m3, h3⟩ := readLPs_enc ess (writeU32 10 ++ writeU32 ess.length) post
      (serializeField ⟨.arrRaw, 10, .vArrRaw ess⟩ ++ post) (0 + 4 + 4)
      (max (max m (0 + 4)) (0 + 4 + 4))
      (by simp [serializeField, payloadBytes, tagOf, List.append_assoc])
      (by simp [writeU32_length]) hess
    unfold classParse parseType
    rw [readU32_encAt (p := ([] : List Nat))
      (q := writeU32 ess.length ++
        (ess.flatMap (fun e => writeU32 e.length ++ e) ++ post)) (v := 10)
      (by simp [serializeField, payloadBytes, tagOf, List.append_assoc])
      (by simp)]
    rw [Nat.mod_eq_of_lt (by norm_num : (10 : Nat) < 4294967296)]
    dsimp only
    rw [if_neg (by decide : ¬(10 : Nat) = 0)]
    rw [readU32_encAt (p := writeU32 10)
      (q := ess.flatMap (fun e => writeU32 e.length ++ e) ++ post)
      (v := ess.length)
      (by simp [serializeField, payloadBytes, tagOf, List.append_assoc])
      (by simp [writeU32_length])]
    rw [Nat.mod_eq_of_lt heslen]
    dsimp only
    rw [h3]
    simp [getArrRaw]

/-- Witness for C10: decoding a serialized one-element array into a field
already holding one element yields both, for each array kind. -/
theorem C10_array_parse_appends_witness :
    (deserializeField ⟨.arrBool, 6, .vArrU32 [1]⟩
        (inbufAt (serializeField ⟨.arrBool, 6, .vArrU32 [2, 3]⟩ ++ []) 0 0)).1
      = ⟨.arrBool, 6, .vArrU32 ([1] ++ [2, 3])⟩
    ∧ (deserializeField ⟨.arrInt, 7, .vArrI32 [1]⟩
        (inbufAt (serializeField ⟨.arrInt, 7, .vArrI32 [2, 3]⟩ ++ []) 0 0)).1
      = ⟨.arrInt, 7, .vArrI32 ([1] ++ [2, 3])⟩
    ∧ (deserializeField ⟨.arrFloat, 8, .vArrF32 [1]⟩
        (inbufAt (serializeField ⟨.arrFloat, 8, .vArrF32 [2, 3]⟩ ++ []) 0 0)).1
      = ⟨.arrFloat, 8, .vArrF32 ([1] ++ [2, 3])⟩
    ∧ (deserializeField ⟨.arrStr, 9, .vArrStr [[4]]⟩
        (inbufAt (serializeField ⟨.arrStr, 9, .vArrStr [[5]]⟩ ++ []) 0 0)).1
      = ⟨.arrStr, 9, .vArrStr ([[4]] ++ [[5]])⟩
    ∧ (deserializeField ⟨.arrRaw, 10, .vArrRaw [[4]]⟩
        (inbufAt (serializeField ⟨.arrRaw, 10, .vArrRaw [[5]]⟩ ++ []) 0 0)).1
      = ⟨.arrRaw, 10, .vArrRaw ([[4]] ++ [[5]])⟩ :=
  C10_array_parse_appends [1] [2, 3] [[4]] [[5]] [] 0 (by decide) (by decide)
    (by decide) (by decide)

end Glue
